import Mathlib

/-!
# Rotation feasibility analysis of `60_rotation_validation.ipynb`

A shallow embedding of the analysis cells of `src/60_rotation_validation.ipynb`:
the loop building `result_data` (one row per `Rotation` of the scenario, holding
`originating_depot_name`, `total_distance`, `minimum_soc`, `soc_below_zero`)
and the reporting cells (`pd.DataFrame(result_data)["soc_below_zero"].value_counts()`
fed to `ax.pie(..., labels=["Success", "Failure"], ...)`).

Database rows are embedded as Lean structures; the real-valued columns
(`soc_end`, `distance`, departure times) are embedded as exact rationals.
Python exceptions and the error classes named by the specification are embedded
as explicit error values returned through `Except`.
-/

/-- A station (`eflips.model.Station`); only its `name` is read by the notebook. -/
structure Station where
  name : String
deriving DecidableEq

/-- A route (`Trip.route` in eflips-model): its `distance` and its departure station,
as read by `t.route.distance` and `rotation.trips[0].route.departure_station.name`.
In the program `distance` is a float64 column; it is embedded as an exact rational,
so IEEE-754 rounding is not modelled and sums of distances are exact here, unlike the
program's float sums (which are order-dependent). Properties of that float arithmetic
itself are therefore outside this embedding. -/
structure Route where
  distance : ℚ
  departure_station : Station
deriving DecidableEq

/-- A trip of a rotation, referencing its route; `departure_time` is the temporal
position of the trip (embedded as a rational timestamp), `id` its primary key. -/
structure Trip where
  id : Nat
  departure_time : ℚ
  route : Route
deriving DecidableEq

/-- The event types of `eflips.model.general.EventType` relevant to the notebook's
`Event.event_type == EventType.DRIVING` filter. -/
inductive EventType where
  | DRIVING
  | CHARGING_DEPOT
  | CHARGING_OPPORTUNITY
  | SERVICE
  | STANDBY
deriving DecidableEq

/-- A simulated event (`eflips.model.general.Event`): the trip it belongs to, its type,
and the state of charge at the end of the event (`soc_end`). -/
structure Event where
  trip_id : Nat
  event_type : EventType
  soc_end : ℚ
deriving DecidableEq

/-- A rotation (`eflips.model.Rotation`): its primary key, the scenario it belongs to,
and its `trips` relationship list. -/
structure Rotation where
  id : Nat
  scenario_id : Nat
  trips : List Trip
deriving DecidableEq

/-- The database state the notebook reads: the rotation and event tables. -/
structure DB where
  rotations : List Rotation
  events : List Event
deriving DecidableEq

/-- One row of the notebook's `result_data` list. -/
structure RotationSummary where
  originating_depot_name : String
  total_distance : ℚ
  minimum_soc : ℚ
  soc_below_zero : Bool
deriving DecidableEq

/-- `session.query(Rotation).filter(Rotation.scenario_id == SCENARIO_ID)`. -/
def scenarioRotations (db : DB) (scenario_id : Nat) : List Rotation :=
  db.rotations.filter (fun r => r.scenario_id == scenario_id)

/-- The rows of `session.query(Event).join(Trip).join(Rotation)
.filter(Rotation.id == rotation.id).filter(Event.event_type == EventType.DRIVING)`:
the DRIVING events whose trip belongs to the given rotation. -/
def drivingEventsOf (db : DB) (rot : Rotation) : List Event :=
  db.events.filter (fun e =>
    e.event_type == EventType.DRIVING && rot.trips.any (fun t => t.id == e.trip_id))

/-- `.order_by(Event.soc_end).first()`: a row with minimal `soc_end`, or `none` when the
query has no rows. SQL leaves the row chosen among ties unspecified; this model keeps
the earliest such row, and only the (tied) `soc_end` value is ever read. -/
def socMinFirst (l : List Event) : Option Event :=
  match l with
  | [] => none
  | e :: es => some (es.foldl (fun a b => if b.soc_end < a.soc_end then b else a) e)

/-- How the notebook's analysis loop can fail, together with the error classes that the
specification names (and which no code in the repository defines or raises). -/
inductive AnalyzeError where
  /-- The Python `AttributeError` raised by `.first().soc_end` when the event query
  returns no row (`None`); it carries no rotation identifier. -/
  | attributeError_NoneType_soc_end
  /-- The Python `IndexError` that `rotation.trips[0]` would raise on an empty
  trip list. -/
  | indexError_trips
  /-- `MissingSimulationDataError` naming the offending rotation, as prescribed by the
  specification (modelled from the spec; absent from the repository's code). -/
  | missingSimulationDataError (rotation_id : Nat)
  /-- `MalformedScheduleError` naming the offending rotation, as prescribed by the
  specification (modelled from the spec; absent from the repository's code). -/
  | malformedScheduleError (rotation_id : Nat)
deriving DecidableEq

/-- The body of the notebook's `for rotation in all_rotations:` loop. The SoC query runs
first and `.soc_end` is read off its `.first()` result (raising on `None`), then
`rotation.trips[0].route.departure_station.name`, then
`sum(t.route.distance for t in rotation.trips)`; on success one `result_data` row is
appended, with `soc_below_zero` set to `lowest_soc_for_rotation < 0`. -/
def rotationResult (db : DB) (rot : Rotation) : Except AnalyzeError RotationSummary :=
  match socMinFirst (drivingEventsOf db rot) with
  | none => .error .attributeError_NoneType_soc_end
  | some ev =>
    match rot.trips with
    | [] => .error .indexError_trips
    | t :: _ =>
      .ok { originating_depot_name := t.route.departure_station.name,
            total_distance := (rot.trips.map (fun tr => tr.route.distance)).sum,
            minimum_soc := ev.soc_end,
            soc_below_zero := decide (ev.soc_end < 0) }

/-- The loop over a list of rotations; an exception raised in an iteration aborts the
whole loop with that error. -/
def analyzeList (db : DB) : List Rotation → Except AnalyzeError (List RotationSummary)
  | [] => .ok []
  | r :: rs =>
    match rotationResult db r with
    | .error e => .error e
    | .ok s =>
      match analyzeList db rs with
      | .error e => .error e
      | .ok l => .ok (s :: l)

/-- `analyze(scenario_id)`: the notebook cell building `result_data` for all rotations
of the scenario. -/
def analyze (db : DB) (scenario_id : Nat) : Except AnalyzeError (List RotationSummary) :=
  analyzeList db (scenarioRotations db scenario_id)

/-- The row `rotationResult` produces when both queries of the loop body succeed
(placeholder values otherwise; only referenced where the queries are known to
succeed). -/
def rotationRow (db : DB) (rot : Rotation) : RotationSummary :=
  match socMinFirst (drivingEventsOf db rot), rot.trips with
  | some ev, t :: _ =>
    { originating_depot_name := t.route.departure_station.name,
      total_distance := (rot.trips.map (fun tr => tr.route.distance)).sum,
      minimum_soc := ev.soc_end,
      soc_below_zero := decide (ev.soc_end < 0) }
  | _, _ =>
    { originating_depot_name := "", total_distance := 0, minimum_soc := 0,
      soc_below_zero := false }

/-- How the notebook's reporting cells can fail. -/
inductive ReportError where
  /-- The Python `KeyError` raised by `df["soc_below_zero"]` when `result_data` is
  empty: `pd.DataFrame([])` has no columns. -/
  | keyError_soc_below_zero
  /-- The matplotlib `ValueError` raised by `ax.pie` when the `labels` list and the
  wedge list have different lengths. -/
  | valueError_label_length
deriving DecidableEq

/-- `df["soc_below_zero"]` for `df = pd.DataFrame(result_data)`: the column as a list,
or a `KeyError` when `result_data` is empty. -/
def socBelowZeroColumn (rs : List RotationSummary) : Except ReportError (List Bool) :=
  match rs with
  | [] => .error .keyError_soc_below_zero
  | _ => .ok (rs.map (fun s => s.soc_below_zero))

/-- The number of entries of a boolean column equal to `b`. -/
def countBool (l : List Bool) (b : Bool) : Nat :=
  (l.filter (fun x => x == b)).length

/-- pandas `Series.value_counts()` on a boolean column: the values present in the data
paired with their counts, sorted by descending count, ties broken by first occurrence;
a value absent from the data gets no entry. -/
def value_counts (l : List Bool) : List (Bool × Nat) :=
  let ct := countBool l true
  let cf := countBool l false
  if ct = 0 then
    (if cf = 0 then [] else [(false, cf)])
  else if cf = 0 then [(true, ct)]
  else if cf < ct then [(true, ct), (false, cf)]
  else if ct < cf then [(false, cf), (true, ct)]
  else
    match l.head? with
    | some true => [(true, ct), (false, cf)]
    | _ => [(false, cf), (true, ct)]

/-- `df["soc_below_zero"].value_counts()`: the per-category counts fed to `ax.pie`. -/
def summarize (rs : List RotationSummary) : Except ReportError (List (Bool × Nat)) :=
  match socBelowZeroColumn rs with
  | .error e => .error e
  | .ok col => .ok (value_counts col)

/-- The fixed label list the notebook passes to `ax.pie`. -/
def pieLabels : List String := ["Success", "Failure"]

/-- `ax.pie(counts, labels=...)`: pairs the wedges with the labels in order; matplotlib
raises `ValueError` when the lengths differ. -/
def pie (counts : List Nat) (labels : List String) :
    Except ReportError (List (String × Nat)) :=
  if labels.length = counts.length then .ok (labels.zip counts)
  else .error .valueError_label_length

/-- The notebook's pie-chart cell:
`ax.pie(df["soc_below_zero"].value_counts(), labels=["Success", "Failure"], ...)`. -/
def successFailureChart (rs : List RotationSummary) :
    Except ReportError (List (String × Nat)) :=
  match summarize rs with
  | .error e => .error e
  | .ok vc => pie (vc.map (fun p => p.2)) pieLabels

/-- The count a `value_counts` report gives for category `b`, an absent category being
read as count zero. -/
def reportCount (vc : List (Bool × Nat)) (b : Bool) : Nat :=
  match vc.find? (fun p => p.1 == b) with
  | some p => p.2
  | none => 0

/-- The wedge count drawn under a given label, when the chart was drawn at all. -/
def labeledCount (rs : List RotationSummary) (lab : String) : Option Nat :=
  match successFailureChart rs with
  | .ok out => (out.find? (fun p => p.1 == lab)).map (fun p => p.2)
  | .error _ => none

/-- Whether an analysis outcome is a `MissingSimulationDataError`, the failure the
specification prescribes for a rotation without driving events. -/
def failsWithMissingSimulationData (res : Except AnalyzeError (List RotationSummary)) :
    Bool :=
  match res with
  | .error (.missingSimulationDataError _) => true
  | _ => false

/-- Whether an analysis outcome is a `MalformedScheduleError`, the failure the
specification prescribes for a rotation without trips. -/
def failsWithMalformedSchedule (res : Except AnalyzeError (List RotationSummary)) :
    Bool :=
  match res with
  | .error (.malformedScheduleError _) => true
  | _ => false

/-- Example station: a depot. -/
def stationA : Station := ⟨"Betriebshof A"⟩

/-- Example station: an ordinary terminus. -/
def stationB : Station := ⟨"Hauptstr."⟩

/-- Example trip departing first (at time 0) from the depot. -/
def trip1 : Trip := ⟨1, 0, ⟨3, stationA⟩⟩

/-- Example trip departing second (at time 10). -/
def trip2 : Trip := ⟨2, 10, ⟨4, stationB⟩⟩

/-- Example rotation of scenario 1 with two trips. -/
def rot1 : Rotation := ⟨1, 1, [trip1, trip2]⟩

/-- Driving event of `trip1`, `soc_end = 1/2`. -/
def ev1 : Event := ⟨1, .DRIVING, 1/2⟩

/-- Driving event of `trip2`, `soc_end = 1/4` (the rotation's minimum). -/
def ev2 : Event := ⟨2, .DRIVING, 1/4⟩

/-- A depot charging event on `trip2`; its low `soc_end` must be ignored by the
`event_type == DRIVING` filter. -/
def ev3 : Event := ⟨2, .CHARGING_DEPOT, -5⟩

/-- Example database: one simulated rotation. -/
def exDB : DB := ⟨[rot1], [ev1, ev2, ev3]⟩

/-- The `result_data` row the notebook produces for `rot1` on `exDB`. -/
def exSummary : RotationSummary := ⟨"Betriebshof A", 7, 1/4, false⟩

/-- Example trip of the unsimulated rotation `rot3`. -/
def trip3 : Trip := ⟨3, 0, ⟨6, stationB⟩⟩

/-- A rotation (id 7) whose trip has no DRIVING event: simulation has not run. -/
def rot3 : Rotation := ⟨7, 1, [trip3]⟩

/-- Database whose only rotation has a trip but no DRIVING events (only a charging
event, which the notebook's filter discards). -/
def exDB3 : DB := ⟨[rot3], [⟨3, .CHARGING_DEPOT, -5⟩]⟩

/-- A rotation (id 5) with zero trips. -/
def rot4 : Rotation := ⟨5, 1, []⟩

/-- Database whose only rotation has zero trips; the event belongs to no trip of it. -/
def exDB4 : DB := ⟨[rot4], [ev1]⟩

/-- A summary row flagged infeasible (`soc_below_zero = true`). -/
def sTrue : RotationSummary := ⟨"Depot X", 100, -1, true⟩

/-- A summary row flagged feasible (`soc_below_zero = false`). -/
def sFalse : RotationSummary := ⟨"Depot Y", 200, 1, false⟩

/-- Summary list with two infeasible rows and one feasible row. -/
def exRows : List RotationSummary := [sTrue, sFalse, sTrue]

/-- Summary list whose rows are all infeasible. -/
def exRowsAllTrue : List RotationSummary := [sTrue]

theorem foldl_pick_soc_end (es : List Event) (a : Event) :
    (es.foldl (fun a b => if b.soc_end < a.soc_end then b else a) a).soc_end
      = (es.map Event.soc_end).foldl min a.soc_end := by
  induction es generalizing a with
  | nil => rfl
  | cons b es ih =>
    simp only [List.foldl_cons, List.map_cons]
    rw [ih]
    have h : (if b.soc_end < a.soc_end then b else a).soc_end
        = min a.soc_end b.soc_end := by
      by_cases hba : b.soc_end < a.soc_end
      · simp [hba, min_def, (not_le).mpr hba]
      · simp [hba, min_def, le_of_not_lt hba]
    rw [h]

theorem socMinFirst_eq_min (l : List Event) (e : Event)
    (h : socMinFirst l = some e) :
    (l.map Event.soc_end).min? = some e.soc_end := by
  cases l with
  | nil => simp [socMinFirst] at h
  | cons a es =>
    simp only [socMinFirst, Option.some.injEq] at h
    subst h
    simp only [List.map_cons, List.min?_cons']
    rw [foldl_pick_soc_end]

theorem analyzeList_zip_mem (db : DB) (rots : List Rotation)
    (l : List RotationSummary) (r : Rotation) (s : RotationSummary)
    (h : analyzeList db rots = .ok l) (hm : (r, s) ∈ rots.zip l) :
    rotationResult db r = .ok s := by
  induction rots generalizing l with
  | nil =>
    simp only [analyzeList, Except.ok.injEq] at h
    subst h
    simp at hm
  | cons r0 rs ih =>
    rw [analyzeList] at h
    cases h1 : rotationResult db r0 with
    | error e => rw [h1] at h; cases h
    | ok s0 =>
      rw [h1] at h
      cases h2 : analyzeList db rs with
      | error e => rw [h2] at h; cases h
      | ok l0 =>
        rw [h2] at h
        cases h
        cases hm with
        | head => exact h1
        | tail _ hm' => exact ih l0 h2 hm'

theorem analyzeList_mem_ok (db : DB) (rots : List Rotation)
    (l : List RotationSummary) (s : RotationSummary)
    (h : analyzeList db rots = .ok l) (hs : s ∈ l) :
    ∃ r, rotationResult db r = .ok s := by
  induction rots generalizing l with
  | nil =>
    simp only [analyzeList, Except.ok.injEq] at h
    subst h
    simp at hs
  | cons r0 rs ih =>
    rw [analyzeList] at h
    cases h1 : rotationResult db r0 with
    | error e => rw [h1] at h; cases h
    | ok s0 =>
      rw [h1] at h
      cases h2 : analyzeList db rs with
      | error e => rw [h2] at h; cases h
      | ok l0 =>
        rw [h2] at h
        cases h
        cases hs with
        | head => exact ⟨r0, h1⟩
        | tail _ hs' => exact ih l0 h2 hs'

theorem rotationResult_ok_shape (db : DB) (r : Rotation) (s : RotationSummary)
    (h : rotationResult db r = .ok s) :
    ∃ ev t ts, socMinFirst (drivingEventsOf db r) = some ev ∧ r.trips = t :: ts ∧
      s = { originating_depot_name := t.route.departure_station.name,
            total_distance := (r.trips.map (fun tr => tr.route.distance)).sum,
            minimum_soc := ev.soc_end,
            soc_below_zero := decide (ev.soc_end < 0) } := by
  unfold rotationResult at h
  cases h1 : socMinFirst (drivingEventsOf db r) with
  | none => rw [h1] at h; cases h
  | some ev =>
    rw [h1] at h
    cases h2 : r.trips with
    | nil => rw [h2] at h; cases h
    | cons t ts =>
      rw [h2] at h
      cases h
      exact ⟨ev, t, ts, rfl, rfl, rfl⟩

theorem drivingEventsOf_eq_nil_of_trips_nil (db : DB) (r : Rotation)
    (h : r.trips = []) : drivingEventsOf db r = [] := by
  unfold drivingEventsOf
  rw [h]
  simp

theorem rotationResult_error_of_no_events (db : DB) (r : Rotation)
    (h : drivingEventsOf db r = []) :
    rotationResult db r = .error .attributeError_NoneType_soc_end := by
  unfold rotationResult
  rw [h]
  rfl

theorem rotationResult_error_eq (db : DB) (r : Rotation) (e : AnalyzeError)
    (h : rotationResult db r = .error e) :
    e = .attributeError_NoneType_soc_end := by
  unfold rotationResult at h
  cases h1 : socMinFirst (drivingEventsOf db r) with
  | none =>
    rw [h1] at h
    cases h
    rfl
  | some ev =>
    rw [h1] at h
    cases h2 : r.trips with
    | nil =>
      exfalso
      rw [drivingEventsOf_eq_nil_of_trips_nil db r h2] at h1
      simp [socMinFirst] at h1
    | cons t ts => rw [h2] at h; cases h

theorem analyzeList_error_of_mem (db : DB) (rots : List Rotation) (r : Rotation)
    (hr : r ∈ rots)
    (he : rotationResult db r = .error .attributeError_NoneType_soc_end) :
    analyzeList db rots = .error .attributeError_NoneType_soc_end := by
  induction rots with
  | nil => cases hr
  | cons r0 rs ih =>
    rw [analyzeList]
    cases hr with
    | head => rw [he]
    | tail _ hr' =>
      cases h1 : rotationResult db r0 with
      | error e => rw [rotationResult_error_eq db r0 e h1]
      | ok s0 => rw [ih hr']

theorem socMinFirst_eq_none_iff (l : List Event) : socMinFirst l = none ↔ l = [] := by
  cases l <;> simp [socMinFirst]

theorem rotationResult_eq_row_of_events (db : DB) (r : Rotation)
    (h : drivingEventsOf db r ≠ []) :
    rotationResult db r = .ok (rotationRow db r) := by
  unfold rotationResult rotationRow
  cases h1 : socMinFirst (drivingEventsOf db r) with
  | none => exact absurd ((socMinFirst_eq_none_iff _).mp h1) h
  | some ev =>
    cases h2 : r.trips with
    | nil =>
      exact absurd (drivingEventsOf_eq_nil_of_trips_nil db r h2) h
    | cons t ts => rfl

theorem analyzeList_map_of_events (db : DB) (rots : List Rotation)
    (h : ∀ r ∈ rots, drivingEventsOf db r ≠ []) :
    analyzeList db rots = .ok (rots.map (rotationRow db)) := by
  induction rots with
  | nil => rfl
  | cons r0 rs ih =>
    rw [analyzeList, rotationResult_eq_row_of_events db r0 (h r0 (by simp)),
      ih (fun r hr => h r (by simp [hr]))]
    rfl

theorem countBool_true_add_false (l : List Bool) :
    countBool l true + countBool l false = l.length := by
  induction l with
  | nil => rfl
  | cons b bs ih =>
    cases b <;> simp [countBool, List.filter] at ih ⊢ <;> omega

theorem reportCount_value_counts (l : List Bool) (b : Bool) :
    reportCount (value_counts l) b = countBool l b := by
  unfold value_counts
  by_cases h1 : countBool l true = 0
  · by_cases h2 : countBool l false = 0
    · cases b <;> simp [h1, h2, reportCount]
    · cases b <;> simp [h1, h2, reportCount]
  · by_cases h2 : countBool l false = 0
    · cases b <;> simp [h1, h2, reportCount]
    · by_cases h3 : countBool l false < countBool l true
      · cases b <;> simp [h1, h2, h3, reportCount]
      · by_cases h4 : countBool l true < countBool l false
        · cases b <;> simp [h1, h2, h3, h4, reportCount]
        · cases hh : l.head? with
          | none => cases b <;> simp [h1, h2, h3, h4, hh, reportCount]
          | some b0 =>
            cases b0 <;> cases b <;> simp [h1, h2, h3, h4, hh, reportCount]

theorem summarize_ok_shape (rs : List RotationSummary) (vc : List (Bool × Nat))
    (h : summarize rs = .ok vc) :
    vc = value_counts (rs.map (fun s => s.soc_below_zero)) := by
  unfold summarize socBelowZeroColumn at h
  cases rs with
  | nil => cases h
  | cons s0 rest =>
    simp only [Except.ok.injEq] at h
    exact h.symm

/-- Claim C1: for every rotation of the scenario paired with its summary row in a
successful `analyze` run, `minimum_soc` equals the minimum of the end-of-segment
state-of-charge (`soc_end`) values over all driving events of the rotation's trips. -/
theorem minimum_soc_eq_min_soc_end (db : DB) (sid : Nat) (l : List RotationSummary)
    (r : Rotation) (s : RotationSummary)
    (ha : analyze db sid = .ok l) (hm : (r, s) ∈ (scenarioRotations db sid).zip l) :
    ((drivingEventsOf db r).map Event.soc_end).min? = some s.minimum_soc := by
  rw [analyze] at ha
  have hok := analyzeList_zip_mem db (scenarioRotations db sid) l r s ha hm
  obtain ⟨ev, t, ts, h1, h2, h3⟩ := rotationResult_ok_shape db r s hok
  subst h3
  exact socMinFirst_eq_min _ ev h1

/-- Witness for C1 on the one-rotation database `exDB`. -/
theorem minimum_soc_eq_min_soc_end_witness :
    ((drivingEventsOf exDB rot1).map Event.soc_end).min? = some exSummary.minimum_soc :=
  minimum_soc_eq_min_soc_end exDB 1 [exSummary] rot1 exSummary
    (by with_unfolding_all rfl) (List.Mem.head _)

/-- Claim C2: every summary row a successful `analyze` run produces has
`soc_below_zero = true` exactly when its `minimum_soc` is strictly negative (so
`minimum_soc = 0` gives `soc_below_zero = false`). -/
theorem soc_below_zero_iff_neg (db : DB) (sid : Nat) (l : List RotationSummary)
    (s : RotationSummary) (ha : analyze db sid = .ok l) (hs : s ∈ l) :
    s.soc_below_zero = true ↔ s.minimum_soc < 0 := by
  rw [analyze] at ha
  obtain ⟨r, hok⟩ := analyzeList_mem_ok db _ l s ha hs
  obtain ⟨ev, t, ts, h1, h2, h3⟩ := rotationResult_ok_shape db r s hok
  subst h3
  simp

/-- Witness for C2 on `exDB`. -/
theorem soc_below_zero_iff_neg_witness :
    exSummary.soc_below_zero = true ↔ exSummary.minimum_soc < 0 :=
  soc_below_zero_iff_neg exDB 1 [exSummary] exSummary (by with_unfolding_all rfl)
    (List.Mem.head _)

/-- Claim C3 counterexample: on a database whose only rotation has a trip but no
driving events, `analyze` does not fail with the spec's `MissingSimulationDataError`
naming the rotation; it fails with the anonymous `AttributeError` raised by
`.first().soc_end` on `None`. -/
theorem missing_events_not_spec_error_counterexample :
    failsWithMissingSimulationData (analyze exDB3 1) = false ∧
    analyze exDB3 1 = .error .attributeError_NoneType_soc_end := ⟨rfl, rfl⟩

/-- Claim C3 (amended): for every rotation of the scenario whose trips have no driving
events, `analyze` fails — with the `AttributeError` from reading `.soc_end` off the
empty query result, which names neither an error class of the spec nor the rotation —
and in particular never returns summaries with a substituted default `minimum_soc`. -/
theorem missing_events_fails_attribute_error (db : DB) (sid : Nat) (r : Rotation)
    (hr : r ∈ scenarioRotations db sid) (he : drivingEventsOf db r = []) :
    analyze db sid = .error .attributeError_NoneType_soc_end := by
  rw [analyze]
  exact analyzeList_error_of_mem db _ r hr (rotationResult_error_of_no_events db r he)

/-- Witness for the amended C3 on `exDB3`. -/
theorem missing_events_fails_attribute_error_witness :
    analyze exDB3 1 = .error .attributeError_NoneType_soc_end :=
  missing_events_fails_attribute_error exDB3 1 rot3 (List.Mem.head _) rfl

/-- Claim C4 counterexample: on a database whose only rotation has zero trips,
`analyze` does not fail with the spec's `MalformedScheduleError`; the SoC query (which
runs before `trips[0]` is read) joins no rows, so the same anonymous `AttributeError`
is raised. -/
theorem zero_trips_not_spec_error_counterexample :
    failsWithMalformedSchedule (analyze exDB4 1) = false ∧
    analyze exDB4 1 = .error .attributeError_NoneType_soc_end := ⟨rfl, rfl⟩

/-- Claim C4 (amended): for every rotation of the scenario with zero trips, `analyze`
fails — not with a `MalformedScheduleError` naming the rotation, but with the
`AttributeError` of the SoC query, whose join over the empty trip list returns no
row. -/
theorem zero_trips_fails_attribute_error (db : DB) (sid : Nat) (r : Rotation)
    (hr : r ∈ scenarioRotations db sid) (ht : r.trips = []) :
    analyze db sid = .error .attributeError_NoneType_soc_end := by
  rw [analyze]
  exact analyzeList_error_of_mem db _ r hr
    (rotationResult_error_of_no_events db r (drivingEventsOf_eq_nil_of_trips_nil db r ht))

/-- Witness for the amended C4 on `exDB4`. -/
theorem zero_trips_fails_attribute_error_witness :
    analyze exDB4 1 = .error .attributeError_NoneType_soc_end :=
  zero_trips_fails_attribute_error exDB4 1 rot4 (List.Mem.head _) rfl

/-- Claim C6 counterexample: on the empty summary sequence (N = 0, K = 0) the report
step fails outright, so no count at all — let alone 0 — is reported for the true
category. -/
theorem summarize_empty_reports_no_counts_counterexample :
    (summarize ([] : List RotationSummary)).toOption.map
      (fun vc => reportCount vc true) = none := rfl

/-- Claim C6 (amended): for every nonempty sequence of summary rows of which exactly K
have `soc_below_zero = true`, the `value_counts` report gives count K for the true
category and N - K for the false category, a category with zero occurrences being
omitted from the report (read as count zero); the empty sequence instead fails with a
`KeyError`. -/
theorem summarize_reports_true_false_counts (rs : List RotationSummary)
    (vc : List (Bool × Nat)) (h : summarize rs = .ok vc) :
    reportCount vc true = countBool (rs.map (fun s => s.soc_below_zero)) true ∧
    reportCount vc false
      = rs.length - countBool (rs.map (fun s => s.soc_below_zero)) true := by
  have hvc := summarize_ok_shape rs vc h
  subst hvc
  refine ⟨reportCount_value_counts _ true, ?_⟩
  rw [reportCount_value_counts _ false]
  have hadd := countBool_true_add_false (rs.map (fun s => s.soc_below_zero))
  rw [List.length_map] at hadd
  omega

/-- Witness for the amended C6 on three rows, two infeasible and one feasible. -/
theorem summarize_reports_true_false_counts_witness :
    reportCount [(true, 2), (false, 1)] true
      = countBool (exRows.map (fun s => s.soc_below_zero)) true ∧
    reportCount [(true, 2), (false, 1)] false
      = exRows.length - countBool (exRows.map (fun s => s.soc_below_zero)) true :=
  summarize_reports_true_false_counts exRows [(true, 2), (false, 1)] rfl

/-- Claim C7 counterexample: on the empty summary sequence the report step fails
rather than returning zero counts for both categories. -/
theorem summarize_empty_not_ok_counterexample :
    (summarize ([] : List RotationSummary)).isOk = false := rfl

/-- Claim C7 (amended): applied to the empty summary sequence, the report step fails
with the `KeyError` of reading the `soc_below_zero` column off an empty `DataFrame`
(which has no columns), instead of returning zero counts for both categories. -/
theorem summarize_empty_fails_keyerror :
    summarize ([] : List RotationSummary) = .error .keyError_soc_below_zero := rfl

/-- Claim C8: for every rotation of the scenario paired with its summary row in a
successful `analyze` run, if the rotation's trip list is sorted by departure time (as
the ORM relationship guarantees), `originating_depot_name` is the departure-station
name of the list's first trip, which departs no later than any trip of the rotation. -/
theorem originating_depot_name_eq_first_trip (db : DB) (sid : Nat)
    (l : List RotationSummary) (r : Rotation) (s : RotationSummary) (t0 t : Trip)
    (ha : analyze db sid = .ok l) (hm : (r, s) ∈ (scenarioRotations db sid).zip l)
    (hsorted : r.trips.Pairwise (fun a b => a.departure_time ≤ b.departure_time))
    (hh : r.trips.head? = some t0) (ht : t ∈ r.trips) :
    s.originating_depot_name = t0.route.departure_station.name ∧
    t0.departure_time ≤ t.departure_time := by
  rw [analyze] at ha
  have hok := analyzeList_zip_mem db _ l r s ha hm
  obtain ⟨ev, t1, ts1, h1, h2, h3⟩ := rotationResult_ok_shape db r s hok
  subst h3
  rw [h2] at hh hsorted ht
  simp only [List.head?_cons, Option.some.injEq] at hh
  subst hh
  refine ⟨rfl, ?_⟩
  cases ht with
  | head => exact le_refl _
  | tail _ ht' => exact (List.pairwise_cons.mp hsorted).1 t ht'

/-- Witness for C8 on `exDB`: `rot1`'s first trip departs from `stationA`. -/
theorem originating_depot_name_eq_first_trip_witness :
    exSummary.originating_depot_name = trip1.route.departure_station.name ∧
    trip1.departure_time ≤ trip2.departure_time :=
  originating_depot_name_eq_first_trip exDB 1 [exSummary] rot1 exSummary trip1 trip2
    (by with_unfolding_all rfl) (List.Mem.head _) (by decide) rfl
    (List.Mem.tail _ (List.Mem.head _))

/-- Claim C9: when every rotation of the scenario has at least one trip and at least
one driving event, `analyze` succeeds and returns exactly one summary row per rotation
of the scenario, in order — none skipped, none duplicated. -/
theorem analyze_one_summary_per_rotation (db : DB) (sid : Nat)
    (hpre : ∀ r ∈ scenarioRotations db sid,
      r.trips ≠ [] ∧ drivingEventsOf db r ≠ []) :
    analyze db sid = .ok ((scenarioRotations db sid).map (rotationRow db)) := by
  rw [analyze]
  exact analyzeList_map_of_events db _ (fun r hr => (hpre r hr).2)

/-- Witness for C9 on `exDB`. -/
theorem analyze_one_summary_per_rotation_witness :
    analyze exDB 1 = .ok ((scenarioRotations exDB 1).map (rotationRow exDB)) :=
  analyze_one_summary_per_rotation exDB 1 (by decide)

/-- Claim C10 counterexample: with every row infeasible (strictly more true than false
but no false row), `value_counts` has a single entry while the label list has two, so
`ax.pie` raises its length-mismatch `ValueError` and no count is labeled at all. -/
theorem pie_label_mismatch_counterexample :
    countBool (exRowsAllTrue.map (fun s => s.soc_below_zero)) false
      < countBool (exRowsAllTrue.map (fun s => s.soc_below_zero)) true ∧
    labeledCount exRowsAllTrue "Success" = none ∧
    successFailureChart exRowsAllTrue = .error .valueError_label_length := by
  refine ⟨by decide, rfl, rfl⟩

/-- Claim C10 (amended): the chart pairs the fixed labels ("Success", "Failure") with
the category counts in descending-frequency order, not by category identity; for every
input with strictly more `soc_below_zero = true` rows than false rows — provided at
least one false row exists, since otherwise `ax.pie` fails on the label/wedge length
mismatch — the count labeled "Success" is the count of infeasible rotations and the
count labeled "Failure" the count of feasible ones. -/
theorem pie_success_labels_infeasible_count (rs : List RotationSummary)
    (hmaj : countBool (rs.map (fun s => s.soc_below_zero)) false
      < countBool (rs.map (fun s => s.soc_below_zero)) true)
    (hfalse : countBool (rs.map (fun s => s.soc_below_zero)) false ≠ 0) :
    labeledCount rs "Success"
      = some (countBool (rs.map (fun s => s.soc_below_zero)) true) ∧
    labeledCount rs "Failure"
      = some (countBool (rs.map (fun s => s.soc_below_zero)) false) := by
  cases rs with
  | nil => simp [countBool] at hmaj
  | cons s0 rest =>
    have hct : countBool ((s0 :: rest).map (fun s => s.soc_below_zero)) true ≠ 0 := by
      omega
    have hvc : value_counts ((s0 :: rest).map (fun s => s.soc_below_zero))
        = [(true, countBool ((s0 :: rest).map (fun s => s.soc_below_zero)) true),
           (false, countBool ((s0 :: rest).map (fun s => s.soc_below_zero)) false)] := by
      unfold value_counts
      rw [if_neg hct, if_neg hfalse, if_pos hmaj]
    have hsum : summarize (s0 :: rest)
        = .ok [(true, countBool ((s0 :: rest).map (fun s => s.soc_below_zero)) true),
               (false, countBool ((s0 :: rest).map (fun s => s.soc_below_zero)) false)] := by
      show Except.ok (value_counts ((s0 :: rest).map (fun s => s.soc_below_zero))) = _
      rw [hvc]
    have hchart : successFailureChart (s0 :: rest)
        = .ok [("Success", countBool ((s0 :: rest).map (fun s => s.soc_below_zero)) true),
               ("Failure", countBool ((s0 :: rest).map (fun s => s.soc_below_zero)) false)] := by
      unfold successFailureChart
      rw [hsum]
      rfl
    unfold labeledCount
    rw [hchart]
    exact ⟨rfl, rfl⟩

/-- Witness for the amended C10 on three rows, two infeasible and one feasible. -/
theorem pie_success_labels_infeasible_count_witness :
    labeledCount exRows "Success"
      = some (countBool (exRows.map (fun s => s.soc_below_zero)) true) ∧
    labeledCount exRows "Failure"
      = some (countBool (exRows.map (fun s => s.soc_below_zero)) false) :=
  pie_success_labels_infeasible_count exRows (by decide) (by decide)
